import Mathlib

/-!
Verification of the DataCite REST client wrapper.

Shallow embedding of `src/datacite/rest_client.py` (class `DataCiteRESTClient`).

The repository ships only `rest_client.py`; its collaborators
`datacite.request.DataCiteRequest` and `datacite.errors.DataCiteError` are not
under `src/`, so they are modelled from the specification (see the doc comments
of `Transport` and `DataCiteError.factory`).

Conventions of the embedding:
* the HTTP transport is a function from a request description to a response
  (status code plus decoded body); each client method records the requests it
  issues as an explicit list, so "no network call" is the empty list;
* Python exceptions become an explicit failure type `DCFailure`; reading an
  unbound local or an undefined global name yields `DCFailure.nameError`
  (Python raises `UnboundLocalError`, a subclass of `NameError`, for the
  former and `NameError` for the latter);
* Python strings are Lean `String`; `str.splitlines`, `str.split(sep, 1)`,
  `"sep".join` and dict insertion are embedded character by character below.
-/

set_option linter.unusedVariables false

/-- Minimal JSON values, enough for the decoded bodies of the structured DOI
endpoints (`null`, strings and objects as ordered field lists). -/
inductive Json where
  | null : Json
  | str (s : String) : Json
  | obj (fields : List (String × Json)) : Json

/-- One HTTP request as assembled by a client method: method, path relative to
the base URL, optional body, and extra headers.  Credentials, base URL and
timeout are configuration the transport closure carries (source lines 59-69,
`_request_factory`). -/
structure DCRequest where
  method : String
  path : String
  body : Option String
  headers : List (String × String)

/-- A transport response: HTTP status code plus the decoded body (source:
`r.code` and `r.data` on `DataCiteRequest`). -/
structure DCResponse (β : Type) where
  code : Nat
  data : β

/-- Modelled from the spec: `datacite.request.DataCiteRequest` (request.py) is
not under `src/`.  Spec section 6 gives the contract
`request(method, path, body?, headers?) -> (status_code, decoded_body)`,
decoding JSON for the structured DOI endpoints and raw text for the legacy,
metadata and media endpoints; the body type is the parameter `β`. -/
def Transport (β : Type) : Type := DCRequest → DCResponse β

/-- Spec section 7 error taxonomy (remote kinds; InvalidArgument is local and
is represented by `DCFailure.valueError`). -/
inductive DCErrorKind where
  | unauthorized : DCErrorKind
  | notFound : DCErrorKind
  | conflict : DCErrorKind
  | serverError : DCErrorKind
  | unknownAPIError : DCErrorKind
deriving DecidableEq

/-- A classified API error: kind plus the original status code and raw body. -/
structure DCError (β : Type) where
  kind : DCErrorKind
  status : Nat
  body : β
deriving DecidableEq

/-- Modelled from the spec: `datacite.errors.DataCiteError.factory` (errors.py)
is not under `src/`.  Spec section 7: given a status code and a response body,
produce exactly one classified error carrying the original status code and the
raw body; kinds are Unauthorized, NotFound, Conflict, ServerError and a
catch-all UnknownAPIError. -/
def DataCiteError.factory {β : Type} (code : Nat) (body : β) : DCError β :=
  { kind :=
      if code = 401 then .unauthorized
      else if code = 404 then .notFound
      else if code = 409 then .conflict
      else if 500 ≤ code then .serverError
      else .unknownAPIError,
    status := code,
    body := body }

/-- Failures a client method can signal: Python `NameError` (with the offending
name), `ValueError` (the local invalid-argument rejection), the `ValueError`
raised by tuple unpacking in `media_get`, `KeyError` and `TypeError` from
subscripting the decoded JSON, and a classified API error. -/
inductive DCFailure (β : Type) where
  | nameError (n : String) : DCFailure β
  | valueError : DCFailure β
  | unpackError : DCFailure β
  | keyError (k : String) : DCFailure β
  | typeError : DCFailure β
  | api (e : DCError β) : DCFailure β

/-- Python subscript `j[k]` on a decoded JSON value: a key lookup on an object
(`KeyError` when absent), `TypeError` on a non-object. -/
def jsonIndex (j : Json) (k : String) : Except (DCFailure Json) Json :=
  match j with
  | .obj fields =>
      match fields.lookup k with
      | some v => .ok v
      | none => .error (.keyError k)
  | _ => .error .typeError

/-- Python `"sep".join` for the separator `"\r\n"` (source lines 103, 122 and
209 all join with CRLF). -/
def joinCRLF : List String → String
  | [] => ""
  | [s] => s
  | s :: s2 :: rest => s ++ "\r\n" ++ joinCRLF (s2 :: rest)

/-- CRLF joining on raw character lists (the specification side of
`joinCRLF`, used to reason about the wire format). -/
def charJoin : List (List Char) → List Char
  | [] => []
  | [x] => x
  | x :: y :: rest => x ++ '\r' :: '\n' :: charJoin (y :: rest)

/-- The line-boundary characters of Python `str.splitlines`. -/
def isLineBreak (c : Char) : Bool :=
  c == '\n' || c == '\r' || c == '\x0b' || c == '\x0c' ||
  c == '\x1c' || c == '\x1d' || c == '\x1e' || c == '\x85' ||
  c == '\u2028' || c == '\u2029'

/-- Worker for Python `str.splitlines`: `acc` is the current line read so far
(reversed), `afterCR` records that the previous character was a carriage
return whose break was already emitted, so an immediately following '\n' is
consumed silently (the `"\r\n"` pair is a single boundary). -/
def splitlinesAux : List Char → List Char → Bool → List String
  | [], acc, _ => if acc = [] then [] else [String.mk acc.reverse]
  | c :: rest, acc, afterCR =>
      if afterCR ∧ c = '\n' then splitlinesAux rest acc false
      else if isLineBreak c then
        String.mk acc.reverse :: splitlinesAux rest [] (decide (c = '\r'))
      else splitlinesAux rest (c :: acc) false

/-- Python `str.splitlines` (used at source line 191). -/
def pySplitlines (s : String) : List String :=
  splitlinesAux s.data [] false

/-- Python `line.split(sep, 1)` restricted to its use at source line 192:
`none` when the separator does not occur (so the two-variable unpacking
raises `ValueError`), otherwise the parts before and after the first
occurrence. -/
def splitFirst (sep : Char) : List Char → Option (List Char × List Char)
  | [] => none
  | c :: rest =>
      if c = sep then some ([], rest)
      else
        match splitFirst sep rest with
        | none => none
        | some kv => some (c :: kv.1, kv.2)

/-- Python dict assignment `d[k] = v` on a dict represented as its insertion
ordered item list: an existing key keeps its position and gets the new value,
a new key is appended. -/
def pyDictInsert (d : List (String × String)) (k v : String) :
    List (String × String) :=
  if k ∈ d.map Prod.fst then d.map (fun kv => if kv.1 = k then (k, v) else kv)
  else d ++ [(k, v)]

/-- The loop of `media_get` (source lines 190-194): build the dict line by
line; a line without '=' makes the two-variable unpacking raise, which
aborts the whole call. -/
def mediaParseAux : List (String × String) → List String →
    Except (DCFailure String) (List (String × String))
  | values, [] => .ok values
  | values, line :: rest =>
      match splitFirst '=' line.data with
      | none => .error .unpackError
      | some kv =>
          mediaParseAux (pyDictInsert values (String.mk kv.1) (String.mk kv.2)) rest

/-- The 200 branch of `media_get` applied to a response body. -/
def mediaParse (s : String) : Except (DCFailure String) (List (String × String)) :=
  mediaParseAux [] (pySplitlines s)

/-- The wire serialization of `media_post` (source line 209):
`"\r\n".join("%s=%s" % (k, v) for items)`. -/
def mediaSerialize (media : List (String × String)) : String :=
  joinCRLF (media.map fun kv => kv.1 ++ "=" ++ kv.2)

/-- Python `s[-1]`: the last character of a string, `none` on the empty
string (where Python would raise `IndexError`; construction never reaches
that case because the base URL is never empty). -/
def lastChar? (s : String) : Option Char :=
  s.data.reverse.head?

/-- The number of consecutive '/' characters at the end of a string. -/
def trailingSlashCount (s : String) : Nat :=
  (s.data.reverse.takeWhile fun c => c == '/').length

/-- A string ends in exactly one trailing '/'. -/
abbrev endsInExactlyOneSlash (s : String) : Prop :=
  trailingSlashCount s = 1

/-- The client configuration assembled by `__init__` (source lines 41-53).
`pfx` is the DOI `prefix` field of the source, renamed here. -/
structure DataCiteRESTClient where
  username : Option String
  password : Option String
  pfx : String
  api_ver : String
  api_url : String
  timeout : Option Nat
deriving DecidableEq

/-- Base URL selection and normalization of `__init__` (source lines 46-51):
test mode forces the sandbox URL, otherwise `url or default`; then a trailing
separator is appended when the last character is not '/'. -/
def initApiUrl (url : Option String) (test_mode : Bool) : String :=
  let base :=
    if test_mode then "https://api.test.datacite.org/"
    else
      match url with
      | none => "https://api.datacite.org/"
      | some u => if u = "" then "https://api.datacite.org/" else u
  if lastChar? base ≠ some '/' then base ++ "/" else base

/-- `DataCiteRESTClient.__init__` (source lines 25-53). -/
def DataCiteRESTClient.init (username password : Option String)
    (url : Option String) (pfx : String) (test_mode : Bool)
    (api_ver : String) (timeout : Option Nat) : DataCiteRESTClient :=
  { username := username, password := password, pfx := pfx,
    api_ver := api_ver, api_url := initApiUrl url test_mode,
    timeout := timeout }

/-- Request of `doi_get` (source line 77). -/
def doiGetReq (doi : String) : DCRequest :=
  ⟨"GET", "dois/" ++ doi, none, []⟩

/-- Request of `doi_post` (source lines 120-125). -/
def doiPostReq (new_doi location : String) : DCRequest :=
  ⟨"POST", "doi", some (joinCRLF ["doi=" ++ new_doi, "url=" ++ location]),
   [("Content-Type", "text/plain;charset=UTF-8")]⟩

/-- Request of `metadata_get` (source lines 137-141). -/
def metadataGetReq (doi : String) : DCRequest :=
  ⟨"GET", "metadata/" ++ doi, none,
   [("Accept", "application/xml"), ("Accept-Encoding", "UTF-8")]⟩

/-- Request of `metadata_post` (source lines 157-160). -/
def metadataPostReq (metadata : String) : DCRequest :=
  ⟨"POST", "metadata", some metadata,
   [("Content-Type", "application/xml;charset=UTF-8")]⟩

/-- Request of `metadata_delete` (source line 174). -/
def metadataDeleteReq (doi : String) : DCRequest :=
  ⟨"DELETE", "metadata/" ++ doi, none, []⟩

/-- Request of `media_get` (source line 187). -/
def mediaGetReq (doi : String) : DCRequest :=
  ⟨"GET", "media/" ++ doi, none, []⟩

/-- Request of `media_post` (source lines 206-212). -/
def mediaPostReq (doi : String) (media : List (String × String)) : DCRequest :=
  ⟨"POST", "media/" ++ doi, some (mediaSerialize media),
   [("Content-Type", "text/plain;charset=UTF-8")]⟩

/-- `doi_get` (source lines 71-81): issue one GET, on 200 return
the subscript chain `attributes` then `url` on `r.data`, otherwise raise the
classified error. -/
def doi_get (c : DataCiteRESTClient) (t : Transport Json) (doi : String) :
    List DCRequest × Except (DCFailure Json) Json :=
  let r := t (doiGetReq doi)
  ([doiGetReq doi],
   if r.code = 200 then
     match jsonIndex r.data "attributes" with
     | .error e => .error e
     | .ok a => jsonIndex a "url"
   else .error (.api (DataCiteError.factory r.code r.data)))

/-- Source line 103 and onwards of `draft_doi`: the body composition
`"\r\n".join(["doi=%s" % new_doi, "url=%s" % location])` evaluates the name
`location`, which is assigned nowhere in the function and does not exist as a
module global, so Python raises `NameError` here; the `r.post` at line 106 is
never reached and no request is issued. -/
def draftSend (c : DataCiteRESTClient) (t : Transport Json) (new_doi : String) :
    List DCRequest × Except (DCFailure Json) Json :=
  ([], .error (.nameError "location"))

/-- `draft_doi` (source lines 83-111).  The Python local `doi` is assigned
only at line 100 (the branch whose suffix has no separator), so at line 95
(`split = doi.split('/')`, the separator branch) it is still unbound and the
attribute access raises `UnboundLocalError`, a subclass of `NameError`,
before the intended prefix comparison at line 96.  The embedding makes the
local explicit as `doiLocal`, initially unbound (`none`); the comparison and
the `raise ValueError` of lines 96-98 are kept as the (unreachable) code they
are.  Every path then reaches line 103, embedded as `draftSend`. -/
def draft_doi (c : DataCiteRESTClient) (t : Transport Json)
    (new_doi : Option String) :
    List DCRequest × Except (DCFailure Json) Json :=
  let doiLocal : Option String := none
  match new_doi with
  | some nd =>
      if nd.data.contains '/' then
        match doiLocal with
        | none => ([], .error (.nameError "doi"))
        | some d =>
            if (d.splitOn "/").headD "" ≠ c.pfx then ([], .error .valueError)
            else draftSend c t nd
      else
        -- line 100 binds the local `doi` to the composed prefix/suffix; the
        -- value is
        -- never used afterwards: line 101 rebuilds `data` from the raw
        -- `new_doi`, and `data` itself is never sent (line 106 posts `body`).
        draftSend c t nd
  | none => draftSend c t "None"

/-- `doi_post` (source lines 113-130): CRLF-joined plain-text body, one POST,
201 returns the raw body, anything else raises the classified error. -/
def doi_post (c : DataCiteRESTClient) (t : Transport String)
    (new_doi location : String) :
    List DCRequest × Except (DCFailure String) String :=
  let r := t (doiPostReq new_doi location)
  ([doiPostReq new_doi location],
   if r.code = 201 then .ok r.data
   else .error (.api (DataCiteError.factory r.code r.data)))

/-- `metadata_get` (source lines 132-146). -/
def metadata_get (c : DataCiteRESTClient) (t : Transport String) (doi : String) :
    List DCRequest × Except (DCFailure String) String :=
  let r := t (metadataGetReq doi)
  ([metadataGetReq doi],
   if r.code = 200 then .ok r.data
   else .error (.api (DataCiteError.factory r.code r.data)))

/-- `metadata_post` (source lines 148-165). -/
def metadata_post (c : DataCiteRESTClient) (t : Transport String)
    (metadata : String) :
    List DCRequest × Except (DCFailure String) String :=
  let r := t (metadataPostReq metadata)
  ([metadataPostReq metadata],
   if r.code = 201 then .ok r.data
   else .error (.api (DataCiteError.factory r.code r.data)))

/-- `metadata_delete` (source lines 167-179). -/
def metadata_delete (c : DataCiteRESTClient) (t : Transport String)
    (doi : String) :
    List DCRequest × Except (DCFailure String) String :=
  let r := t (metadataDeleteReq doi)
  ([metadataDeleteReq doi],
   if r.code = 200 then .ok r.data
   else .error (.api (DataCiteError.factory r.code r.data)))

/-- `media_get` (source lines 181-196). -/
def media_get (c : DataCiteRESTClient) (t : Transport String) (doi : String) :
    List DCRequest × Except (DCFailure String) (List (String × String)) :=
  let r := t (mediaGetReq doi)
  ([mediaGetReq doi],
   if r.code = 200 then mediaParse r.data
   else .error (.api (DataCiteError.factory r.code r.data)))

/-- `media_post` (source lines 198-217). -/
def media_post (c : DataCiteRESTClient) (t : Transport String) (doi : String)
    (media : List (String × String)) :
    List DCRequest × Except (DCFailure String) String :=
  let r := t (mediaPostReq doi media)
  ([mediaPostReq doi media],
   if r.code = 200 then .ok r.data
   else .error (.api (DataCiteError.factory r.code r.data)))

/-- The public methods of the client, as one call type (used to state the
frame property of the configuration). -/
inductive ClientCall where
  | doiGet (doi : String) : ClientCall
  | draftDoi (new_doi : Option String) : ClientCall
  | doiPost (new_doi location : String) : ClientCall
  | metadataGet (doi : String) : ClientCall
  | metadataPost (metadata : String) : ClientCall
  | metadataDelete (doi : String) : ClientCall
  | mediaGet (doi : String) : ClientCall
  | mediaPost (doi : String) (media : List (String × String)) : ClientCall

/-- The outcome of one public method call. -/
inductive CallOutcome where
  | jsonResult (res : List DCRequest × Except (DCFailure Json) Json) : CallOutcome
  | textResult (res : List DCRequest × Except (DCFailure String) String) : CallOutcome
  | mediaResult (res : List DCRequest ×
      Except (DCFailure String) (List (String × String))) : CallOutcome

/-- One public method call on the client object in state-passing form: the
first component of the result is the post-state of the object.  No method
body of the source contains an assignment to a `self` field (only `__init__`,
lines 41-53, assigns them), so each arm returns the object it received. -/
def clientStep (c : DataCiteRESTClient) (tJ : Transport Json)
    (tS : Transport String) : ClientCall → DataCiteRESTClient × CallOutcome
  | .doiGet doi => (c, .jsonResult (doi_get c tJ doi))
  | .draftDoi nd => (c, .jsonResult (draft_doi c tJ nd))
  | .doiPost nd loc => (c, .textResult (doi_post c tS nd loc))
  | .metadataGet doi => (c, .textResult (metadata_get c tS doi))
  | .metadataPost m => (c, .textResult (metadata_post c tS m))
  | .metadataDelete doi => (c, .textResult (metadata_delete c tS doi))
  | .mediaGet doi => (c, .mediaResult (media_get c tS doi))
  | .mediaPost doi m => (c, .textResult (media_post c tS doi m))

/-- A concrete client: prefix `10.5072`, production base URL. -/
def cfg0 : DataCiteRESTClient :=
  { username := some "user", password := some "pass", pfx := "10.5072",
    api_ver := "2", api_url := initApiUrl none false, timeout := none }

/-- A JSON transport answering every request with status 500. -/
def tJ500 : Transport Json := fun _ => ⟨500, Json.null⟩

/-- A text transport answering every request with status 500. -/
def tS500 : Transport String := fun _ => ⟨500, "server error"⟩

/-- A text transport answering 201 with the literal service echo. -/
def t201 : Transport String := fun _ => ⟨201, "DOI\nURL\n"⟩

/-- A text transport answering 200 with a body whose single line has no
separator. -/
def t200bad : Transport String := fun _ => ⟨200, "noequals"⟩

/-- The full JSON document of the resolve scenario as decoded body. -/
def jdoc : Json :=
  .obj [("data", .obj [("attributes", .obj [("url", .str "http://x.org")])])]

/-- The resource object (the `data` member) of the resolve scenario. -/
def jres : Json :=
  .obj [("attributes", .obj [("url", .str "http://x.org")])]

/-- A JSON transport answering 200 with the full document `jdoc`. -/
def tJdoc : Transport Json := fun _ => ⟨200, jdoc⟩

/-- A JSON transport answering 200 with the resource object `jres`. -/
def tJres : Transport Json := fun _ => ⟨200, jres⟩

/-- The media mapping of the round-trip scenario. -/
def mediaExample : List (String × String) :=
  [("text/plain", "http://example.org/a"), ("application/pdf", "http://example.org/b")]

/-! ## Basic string lemmas -/

@[simp] theorem strMk_data (l : List Char) : (String.mk l).data = l := rfl

@[simp] theorem strMk_eta (s : String) : String.mk s.data = s := rfl

theorem strData_append (s t : String) : (s ++ t).data = s.data ++ t.data := by
  cases s; cases t; rfl

theorem lastChar_append_slash (s : String) : lastChar? (s ++ "/") = some '/' := by
  simp [lastChar?, strData_append, show ("/" : String).data = ['/'] from rfl]

/-! ## Lemmas about the base URL normalization -/

theorem initApiUrl_some_false (v : String) (hv : v ≠ "") :
    initApiUrl (some v) false = if lastChar? v ≠ some '/' then v ++ "/" else v := by
  simp [initApiUrl, hv]

theorem initApiUrl_ends_slash (url : Option String) (tm : Bool) :
    lastChar? (initApiUrl url tm) = some '/' := by
  have key : ∀ b : String,
      lastChar? (if lastChar? b ≠ some '/' then b ++ "/" else b) = some '/' := by
    intro b
    by_cases hb : lastChar? b = some '/'
    · rw [if_neg (not_not_intro hb)]; exact hb
    · rw [if_pos hb]; exact lastChar_append_slash b
  exact key _

theorem initApiUrl_idem (url : Option String) (tm : Bool) :
    initApiUrl (some (initApiUrl url tm)) false = initApiUrl url tm := by
  have h := initApiUrl_ends_slash url tm
  have hne : initApiUrl url tm ≠ "" := by
    intro e
    rw [e] at h
    exact absurd h (by decide)
  rw [initApiUrl_some_false _ hne, if_neg (not_not_intro h)]

theorem initApiUrl_keep (u : String) (hu : u ≠ "") (hs : lastChar? u = some '/') :
    initApiUrl (some u) false = u := by
  rw [initApiUrl_some_false u hu, if_neg (not_not_intro hs)]

theorem initApiUrl_append_sep (u : String) (hu : u ≠ "")
    (hs : lastChar? u ≠ some '/') : initApiUrl (some u) false = u ++ "/" := by
  rw [initApiUrl_some_false u hu, if_pos hs]

/-! ## Claim theorems: construction and the broken draft path -/

/-- C7 (amended): base URL normalization at construction yields a URL ending
in a trailing separator and is idempotent; a separator is appended exactly
when the last character is not '/' and is never appended when one is
already present — but a base URL that already ends in several '/' is kept
as is, so the result need not end in exactly one '/'. -/
theorem baseUrl_normalization :
    initApiUrl (some "https://example.org") false = "https://example.org/" ∧
    initApiUrl (some "https://example.org/") false = "https://example.org/" ∧
    (∀ (url : Option String) (tm : Bool),
      lastChar? (initApiUrl url tm) = some '/') ∧
    (∀ (url : Option String) (tm : Bool),
      initApiUrl (some (initApiUrl url tm)) false = initApiUrl url tm) ∧
    (∀ u : String, u ≠ "" → lastChar? u = some '/' →
      initApiUrl (some u) false = u) ∧
    (∀ u : String, u ≠ "" → lastChar? u ≠ some '/' →
      initApiUrl (some u) false = u ++ "/") :=
  ⟨by decide, by decide, initApiUrl_ends_slash, initApiUrl_idem,
   initApiUrl_keep, initApiUrl_append_sep⟩

/-- C7 witness: the two conditional parts of `baseUrl_normalization`
evaluated at concrete inputs. -/
theorem baseUrl_normalization_witness :
    initApiUrl (some "a/") false = "a/" ∧
    initApiUrl (some "a") false = "a" ++ "/" :=
  ⟨baseUrl_normalization.2.2.2.2.1 "a/" (by decide) (by decide),
   baseUrl_normalization.2.2.2.2.2 "a" (by decide) (by decide)⟩

/-- C7 counterexample: constructing with a base URL that already ends in two
separators keeps both, so the internal base does not end in exactly one
trailing '/' as the claim states. -/
theorem baseUrl_double_slash_counterexample :
    initApiUrl (some "https://example.org//") false = "https://example.org//" ∧
    ¬ endsInExactlyOneSlash (initApiUrl (some "https://example.org//") false) :=
  ⟨by decide, by decide⟩

/-- C2: every call of `draft_doi`, with or without a suffix, issues no
request and fails with a `NameError`: on the unbound local `doi` (line 95)
when the supplied suffix contains a separator, and on the undefined name
`location` (line 103) otherwise; it never returns successfully. -/
theorem draft_doi_always_nameError (c : DataCiteRESTClient) (t : Transport Json)
    (nd : Option String) :
    (draft_doi c t nd).1 = [] ∧
    (draft_doi c t nd).2 = .error (.nameError
      (match nd with
       | some s => if s.data.contains '/' then "doi" else "location"
       | none => "location")) := by
  cases nd with
  | none => exact ⟨rfl, rfl⟩
  | some s =>
      by_cases hc : '/' ∈ s.data
      · constructor <;> simp [draft_doi, draftSend, hc]
      · constructor <;> simp [draft_doi, draftSend, hc]

/-- C1 (the code evaluated at a failing input): with configured prefix
`10.5072`, a draft mint of the fully qualified `10.1234/abc` (wrong prefix)
raises `NameError` on the unbound local `doi` instead of the intended
`ValueError`; no request is issued. -/
theorem draft_doi_wrong_pfx_eval :
    draft_doi cfg0 tJ500 (some "10.1234/abc") =
      ([], .error (.nameError "doi")) := rfl

/-- C3 (the code evaluated at the two calls the claim equates): with
configured prefix `10.5072`, neither `draft_doi "abc"` nor
`draft_doi "10.5072/abc"` sends any request; both fail with a `NameError`
(on `location` and on `doi` respectively), so no composed identifier is ever
put on the wire. -/
theorem draft_doi_both_forms_eval :
    draft_doi cfg0 tJ500 (some "abc") = ([], .error (.nameError "location")) ∧
    draft_doi cfg0 tJ500 (some "10.5072/abc") = ([], .error (.nameError "doi")) :=
  ⟨rfl, rfl⟩

/-- C9: every public operation, whether it returns a result or fails, leaves
the whole client configuration (all six fields) unchanged: the post-state of
any call equals the pre-state. -/
theorem client_config_frame (c : DataCiteRESTClient) (tJ : Transport Json)
    (tS : Transport String) (call : ClientCall) :
    (clientStep c tJ tS call).1 = c := by
  cases call <;> rfl

/-! ## Lemmas about the splitlines embedding -/

theorem isLineBreak_cr : isLineBreak '\r' = true := by decide

theorem not_break_ne (c : Char) (hc : isLineBreak c = false) :
    c ≠ '\n' ∧ c ≠ '\r' := by
  constructor <;> rintro rfl <;> exact absurd hc (by decide)

theorem splitlinesAux_nil (acc : List Char) :
    splitlinesAux [] acc false =
      if acc = [] then [] else [String.mk acc.reverse] := rfl

theorem splitlinesAux_consume (line : List Char)
    (h : ∀ c ∈ line, isLineBreak c = false) :
    ∀ (l acc : List Char),
      splitlinesAux (line ++ l) acc false =
        splitlinesAux l (line.reverse ++ acc) false := by
  induction line with
  | nil => intro l acc; simp
  | cons c cs ih =>
    intro l acc
    have hc : isLineBreak c = false := h c (List.mem_cons_self c cs)
    have step : splitlinesAux (c :: (cs ++ l)) acc false =
        splitlinesAux (cs ++ l) (c :: acc) false := by
      simp [splitlinesAux, hc, (not_break_ne c hc).1]
    rw [List.cons_append, step, ih (fun x hx => h x (List.mem_cons_of_mem c hx))]
    simp [List.append_assoc]

theorem splitlinesAux_crlf (l acc : List Char) :
    splitlinesAux ('\r' :: '\n' :: l) acc false =
      String.mk acc.reverse :: splitlinesAux l [] false := by
  simp [splitlinesAux, isLineBreak_cr]

theorem splitlinesAux_charJoin :
    ∀ (lines : List (List Char)),
      (∀ L ∈ lines, L ≠ [] ∧ ∀ c ∈ L, isLineBreak c = false) →
      splitlinesAux (charJoin lines) [] false = lines.map (fun L => String.mk L)
  | [], _ => rfl
  | [x], h => by
      have hx := h x (by simp)
      have hcons := splitlinesAux_consume x hx.2 [] []
      rw [List.append_nil, List.append_nil] at hcons
      show splitlinesAux x [] false = [String.mk x]
      rw [hcons, splitlinesAux_nil,
        if_neg (by simpa using hx.1), List.reverse_reverse]
  | x :: y :: rest, h => by
      have hx := h x (by simp)
      have htail : ∀ L ∈ y :: rest, L ≠ [] ∧ ∀ c ∈ L, isLineBreak c = false :=
        fun L hL => h L (List.mem_cons_of_mem x hL)
      have ih := splitlinesAux_charJoin (y :: rest) htail
      show splitlinesAux (x ++ '\r' :: '\n' :: charJoin (y :: rest)) [] false = _
      rw [splitlinesAux_consume x hx.2, splitlinesAux_crlf, ih]
      simp

theorem joinCRLF_data :
    ∀ (ss : List String), (joinCRLF ss).data = charJoin (ss.map String.data)
  | [] => rfl
  | [s] => rfl
  | s :: s2 :: rest => by
      show ((s ++ "\r\n") ++ joinCRLF (s2 :: rest)).data = _
      rw [strData_append, strData_append, joinCRLF_data (s2 :: rest)]
      show s.data ++ ['\r', '\n'] ++ charJoin ((s2 :: rest).map String.data) =
        s.data ++ '\r' :: '\n' :: charJoin ((s2 :: rest).map String.data)
      simp

/-! ## Lemmas about the media wire format -/

theorem splitFirst_key_val (k v : List Char) (hk : '=' ∉ k) :
    splitFirst '=' (k ++ '=' :: v) = some (k, v) := by
  induction k with
  | nil => simp [splitFirst]
  | cons c k2 ih =>
    have hc : c ≠ '=' := by rintro rfl; exact hk (List.mem_cons_self _ _)
    have hk2 : '=' ∉ k2 := fun m => hk (List.mem_cons_of_mem c m)
    simp [splitFirst, hc, ih hk2]

theorem mediaParseAux_clean :
    ∀ (m d : List (String × String)),
      (∀ kv ∈ m, '=' ∉ kv.1.data) →
      (∀ kv ∈ m, kv.1 ∉ d.map Prod.fst) →
      (m.map Prod.fst).Nodup →
      mediaParseAux d (m.map fun kv => String.mk (kv.1.data ++ '=' :: kv.2.data)) =
        .ok (d ++ m)
  | [], d, _, _, _ => by simp [mediaParseAux]
  | kv :: m2, d, hk, hd, hnd => by
      have hk1 : '=' ∉ kv.1.data := hk kv (by simp)
      have hnotin : kv.1 ∉ d.map Prod.fst := hd kv (by simp)
      rw [List.map_cons] at hnd
      have hhead : kv.1 ∉ m2.map Prod.fst := (List.nodup_cons.mp hnd).1
      have hnd2 : (m2.map Prod.fst).Nodup := (List.nodup_cons.mp hnd).2
      have step : mediaParseAux d
          ((kv :: m2).map fun p => String.mk (p.1.data ++ '=' :: p.2.data)) =
          mediaParseAux (d ++ [kv])
            (m2.map fun p => String.mk (p.1.data ++ '=' :: p.2.data)) := by
        rw [List.map_cons]
        simp only [mediaParseAux, strMk_data, splitFirst_key_val _ _ hk1]
        rw [show pyDictInsert d (String.mk kv.1.data) (String.mk kv.2.data) =
            d ++ [kv] from by
          simp only [strMk_eta, pyDictInsert, if_neg hnotin]]
      have hd2 : ∀ p ∈ m2, p.1 ∉ (d ++ [kv]).map Prod.fst := by
        intro p hp
        rw [List.map_append, List.mem_append]
        rintro (h1 | h2)
        · exact hd p (List.mem_cons_of_mem kv hp) h1
        · rcases List.mem_singleton.mp (by simpa using h2) with e
          exact hhead (e ▸ List.mem_map_of_mem Prod.fst hp)
      have ih := mediaParseAux_clean m2 (d ++ [kv])
        (fun p hp => hk p (List.mem_cons_of_mem kv hp)) hd2 hnd2
      rw [step, ih]
      simp

/-! ## Claim theorems: media wire format -/

/-- C6: for every media mapping whose keys contain no '=' and whose keys
and values contain no line-break characters, serializing with the
`media_post` wire serialization and parsing back with the `media_get` line
parser yields the original mapping exactly (values may contain '=', which
the hypotheses do not exclude). -/
theorem media_roundtrip (m : List (String × String))
    (hk : ∀ kv ∈ m, '=' ∉ kv.1.data)
    (hbr : ∀ kv ∈ m, (∀ c ∈ kv.1.data, isLineBreak c = false) ∧
        (∀ c ∈ kv.2.data, isLineBreak c = false))
    (hnd : (m.map Prod.fst).Nodup) :
    mediaParse (mediaSerialize m) = .ok m := by
  have hdata : (mediaSerialize m).data =
      charJoin (m.map fun kv => kv.1.data ++ '=' :: kv.2.data) := by
    rw [mediaSerialize, joinCRLF_data, List.map_map]
    have : (String.data ∘ fun kv : String × String => kv.1 ++ "=" ++ kv.2) =
        fun kv : String × String => kv.1.data ++ '=' :: kv.2.data := by
      funext kv
      show ((kv.1 ++ "=") ++ kv.2).data = _
      rw [strData_append, strData_append,
        show ("=" : String).data = ['='] from rfl]
      simp
    rw [this]
  have hlines : ∀ L ∈ m.map fun kv : String × String =>
      kv.1.data ++ '=' :: kv.2.data,
      L ≠ [] ∧ ∀ c ∈ L, isLineBreak c = false := by
    intro L hL
    obtain ⟨kv, hkv, rfl⟩ := List.mem_map.mp hL
    refine ⟨by simp, ?_⟩
    intro ch hch
    rcases List.mem_append.mp hch with h1 | h2
    · exact (hbr kv hkv).1 ch h1
    · rcases List.mem_cons.mp h2 with rfl | h3
      · decide
      · exact (hbr kv hkv).2 ch h3
  have hsplit : pySplitlines (mediaSerialize m) =
      m.map fun kv : String × String =>
        String.mk (kv.1.data ++ '=' :: kv.2.data) := by
    rw [pySplitlines, hdata, splitlinesAux_charJoin _ hlines, List.map_map]
    rfl
  rw [mediaParse, hsplit,
    mediaParseAux_clean m [] hk (by intro kv hkv; simp) hnd]
  simp

/-- C6 witness: the round-trip theorem applied to the concrete mapping of
the claim. -/
theorem media_roundtrip_witness :
    mediaParse (mediaSerialize mediaExample) = .ok mediaExample :=
  media_roundtrip mediaExample (by decide) (by decide) (by decide)

theorem mediaParseAux_bad :
    ∀ (lines : List String) (d : List (String × String)),
      (∃ L ∈ lines, splitFirst '=' L.data = none) →
      mediaParseAux d lines = .error .unpackError
  | [], d, h => absurd h (by simp)
  | L :: rest, d, h => by
      cases hs : splitFirst '=' L.data with
      | none => simp [mediaParseAux, hs]
      | some kv =>
        have hr : ∃ L2 ∈ rest, splitFirst '=' L2.data = none := by
          rcases h with ⟨L3, hL3, h3⟩
          rcases List.mem_cons.mp hL3 with rfl | hm
          · exact absurd h3 (by simp [hs])
          · exact ⟨L3, hm, h3⟩
        simp [mediaParseAux, hs, mediaParseAux_bad rest _ hr]

theorem mediaParseAux_good :
    ∀ (lines : List String) (d : List (String × String)),
      (∀ L ∈ lines, splitFirst '=' L.data ≠ none) →
      ∃ v, mediaParseAux d lines = .ok v
  | [], d, _ => ⟨d, rfl⟩
  | L :: rest, d, h => by
      cases hs : splitFirst '=' L.data with
      | none => exact absurd hs (h L (by simp))
      | some kv =>
        obtain ⟨v, hv⟩ := mediaParseAux_good rest
          (pyDictInsert d (String.mk kv.1) (String.mk kv.2))
          (fun L2 h2 => h L2 (List.mem_cons_of_mem L h2))
        exact ⟨v, by simp [mediaParseAux, hs, hv]⟩

/-- C10: when `media_get` receives a 200 response, the whole call fails with
the unpacking error as soon as any line of the body lacks an '='
separator (no partial mapping is returned), and a mapping is returned
exactly when every line contains at least one '='. -/
theorem media_get_line_policy (c : DataCiteRESTClient) (t : Transport String)
    (doi : String) (h200 : (t (mediaGetReq doi)).code = 200) :
    ((∃ L ∈ pySplitlines (t (mediaGetReq doi)).data,
        splitFirst '=' L.data = none) →
      (media_get c t doi).2 = .error .unpackError) ∧
    ((∀ L ∈ pySplitlines (t (mediaGetReq doi)).data,
        splitFirst '=' L.data ≠ none) →
      ∃ v, (media_get c t doi).2 = .ok v) := by
  constructor
  · intro hbad
    show (if (t (mediaGetReq doi)).code = 200
        then mediaParse (t (mediaGetReq doi)).data
        else .error (.api (DataCiteError.factory (t (mediaGetReq doi)).code
          (t (mediaGetReq doi)).data))) = _
    rw [if_pos h200, mediaParse]
    exact mediaParseAux_bad _ _ hbad
  · intro hgood
    obtain ⟨v, hv⟩ :=
      mediaParseAux_good (pySplitlines (t (mediaGetReq doi)).data) [] hgood
    refine ⟨v, ?_⟩
    show (if (t (mediaGetReq doi)).code = 200
        then mediaParse (t (mediaGetReq doi)).data
        else .error (.api (DataCiteError.factory (t (mediaGetReq doi)).code
          (t (mediaGetReq doi)).data))) = _
    rw [if_pos h200, mediaParse, hv]

/-- C10 witness: a 200 body whose single line has no separator makes the
whole call fail with the unpacking error. -/
theorem media_get_line_policy_witness :
    (media_get cfg0 t200bad "10.5072/x").2 = .error .unpackError :=
  (media_get_line_policy cfg0 t200bad "10.5072/x" rfl).1
    ⟨"noequals", by decide, by decide⟩

/-! ## Claim theorems: resolve, error propagation, legacy mint -/

/-- C4 counterexample: with the transport returning status 200 and the
decoded JSON body being the full document
`obj [("data", obj [("attributes", obj [("url", str "http://x.org")])])]`,
`doi_get` does not return `"http://x.org"`: line 79 subscripts
the key `attributes` on `r.data` directly, which fails with `KeyError`
because the top
level key of the document is `"data"`. -/
theorem doi_get_full_document_counterexample :
    (doi_get cfg0 tJdoc "10.5072/abc").2 = .error (.keyError "attributes") ∧
    (doi_get cfg0 tJdoc "10.5072/abc").2 ≠ .ok (Json.str "http://x.org") :=
  ⟨rfl, fun h => nomatch h⟩

/-- C4 (amended): when the decoded body handed to `doi_get` for a 200
response is the resource object `obj [("attributes", obj [("url", str
"http://x.org")])]` — the `"data"` member of the documented wire body — the
operation returns `"http://x.org"`, extracted from the resource attributes,
after issuing exactly the one resolve request. -/
theorem doi_get_resource_object_url :
    (doi_get cfg0 tJres "10.5072/abc").1 = [doiGetReq "10.5072/abc"] ∧
    (doi_get cfg0 tJres "10.5072/abc").2 = .ok (Json.str "http://x.org") :=
  ⟨rfl, rfl⟩

/-- C5: each of the seven request-issuing operations issues exactly one
request, and every non-success status from the transport makes it fail with
exactly the classified error produced from the original status code and the
raw response body (success codes: 200, except 201 for `doi_post` and
`metadata_post`).  `draft_doi` never consumes a transport status (see
`draft_doi_always_nameError`), so the policy is vacuous for it. -/
theorem nonsuccess_status_classified :
    (∀ (c : DataCiteRESTClient) (t : Transport Json) (doi : String),
      (doi_get c t doi).1 = [doiGetReq doi] ∧
      ((t (doiGetReq doi)).code ≠ 200 →
        (doi_get c t doi).2 = .error (.api (DataCiteError.factory
          (t (doiGetReq doi)).code (t (doiGetReq doi)).data)))) ∧
    (∀ (c : DataCiteRESTClient) (t : Transport String) (nd loc : String),
      (doi_post c t nd loc).1 = [doiPostReq nd loc] ∧
      ((t (doiPostReq nd loc)).code ≠ 201 →
        (doi_post c t nd loc).2 = .error (.api (DataCiteError.factory
          (t (doiPostReq nd loc)).code (t (doiPostReq nd loc)).data)))) ∧
    (∀ (c : DataCiteRESTClient) (t : Transport String) (doi : String),
      (metadata_get c t doi).1 = [metadataGetReq doi] ∧
      ((t (metadataGetReq doi)).code ≠ 200 →
        (metadata_get c t doi).2 = .error (.api (DataCiteError.factory
          (t (metadataGetReq doi)).code (t (metadataGetReq doi)).data)))) ∧
    (∀ (c : DataCiteRESTClient) (t : Transport String) (md : String),
      (metadata_post c t md).1 = [metadataPostReq md] ∧
      ((t (metadataPostReq md)).code ≠ 201 →
        (metadata_post c t md).2 = .error (.api (DataCiteError.factory
          (t (metadataPostReq md)).code (t (metadataPostReq md)).data)))) ∧
    (∀ (c : DataCiteRESTClient) (t : Transport String) (doi : String),
      (metadata_delete c t doi).1 = [metadataDeleteReq doi] ∧
      ((t (metadataDeleteReq doi)).code ≠ 200 →
        (metadata_delete c t doi).2 = .error (.api (DataCiteError.factory
          (t (metadataDeleteReq doi)).code (t (metadataDeleteReq doi)).data)))) ∧
    (∀ (c : DataCiteRESTClient) (t : Transport String) (doi : String),
      (media_get c t doi).1 = [mediaGetReq doi] ∧
      ((t (mediaGetReq doi)).code ≠ 200 →
        (media_get c t doi).2 = .error (.api (DataCiteError.factory
          (t (mediaGetReq doi)).code (t (mediaGetReq doi)).data)))) ∧
    (∀ (c : DataCiteRESTClient) (t : Transport String) (doi : String)
        (media : List (String × String)),
      (media_post c t doi media).1 = [mediaPostReq doi media] ∧
      ((t (mediaPostReq doi media)).code ≠ 200 →
        (media_post c t doi media).2 = .error (.api (DataCiteError.factory
          (t (mediaPostReq doi media)).code (t (mediaPostReq doi media)).data)))) :=
  ⟨fun c t doi => ⟨rfl, fun h => if_neg h⟩,
   fun c t nd loc => ⟨rfl, fun h => if_neg h⟩,
   fun c t doi => ⟨rfl, fun h => if_neg h⟩,
   fun c t md => ⟨rfl, fun h => if_neg h⟩,
   fun c t doi => ⟨rfl, fun h => if_neg h⟩,
   fun c t doi => ⟨rfl, fun h => if_neg h⟩,
   fun c t doi media => ⟨rfl, fun h => if_neg h⟩⟩

/-- C5 witness: all seven operations evaluated against a transport that
always answers status 500; each fails with the classified server error
carrying code 500 and the raw body. -/
theorem nonsuccess_status_classified_witness :
    (doi_get cfg0 tJ500 "10.5072/a").2 =
      .error (.api (DataCiteError.factory 500 Json.null)) ∧
    (doi_post cfg0 tS500 "10.5072/a" "http://e.org").2 =
      .error (.api (DataCiteError.factory 500 "server error")) ∧
    (metadata_get cfg0 tS500 "10.5072/a").2 =
      .error (.api (DataCiteError.factory 500 "server error")) ∧
    (metadata_post cfg0 tS500 "<resource/>").2 =
      .error (.api (DataCiteError.factory 500 "server error")) ∧
    (metadata_delete cfg0 tS500 "10.5072/a").2 =
      .error (.api (DataCiteError.factory 500 "server error")) ∧
    (media_get cfg0 tS500 "10.5072/a").2 =
      .error (.api (DataCiteError.factory 500 "server error")) ∧
    (media_post cfg0 tS500 "10.5072/a" mediaExample).2 =
      .error (.api (DataCiteError.factory 500 "server error")) :=
  ⟨(nonsuccess_status_classified.1 cfg0 tJ500 "10.5072/a").2 (by decide),
   (nonsuccess_status_classified.2.1 cfg0 tS500 "10.5072/a" "http://e.org").2
     (by decide),
   (nonsuccess_status_classified.2.2.1 cfg0 tS500 "10.5072/a").2 (by decide),
   (nonsuccess_status_classified.2.2.2.1 cfg0 tS500 "<resource/>").2 (by decide),
   (nonsuccess_status_classified.2.2.2.2.1 cfg0 tS500 "10.5072/a").2 (by decide),
   (nonsuccess_status_classified.2.2.2.2.2.1 cfg0 tS500 "10.5072/a").2 (by decide),
   (nonsuccess_status_classified.2.2.2.2.2.2 cfg0 tS500 "10.5072/a" mediaExample).2
     (by decide)⟩

/-- C8: `doi_post` issues exactly one request whose plain-text body is
`doi=<doi>` and `url=<location>` joined by CRLF; on status 201 it returns
the raw response body unchanged (no interpretation of its content), and on
any other status it fails with the classified error. -/
theorem doi_post_contract (c : DataCiteRESTClient) (t : Transport String)
    (nd loc : String) :
    (doi_post c t nd loc).1 = [doiPostReq nd loc] ∧
    (doiPostReq nd loc).body = some ("doi=" ++ nd ++ "\r\n" ++ ("url=" ++ loc)) ∧
    ((t (doiPostReq nd loc)).code = 201 →
      (doi_post c t nd loc).2 = .ok (t (doiPostReq nd loc)).data) ∧
    ((t (doiPostReq nd loc)).code ≠ 201 →
      (doi_post c t nd loc).2 = .error (.api (DataCiteError.factory
        (t (doiPostReq nd loc)).code (t (doiPostReq nd loc)).data))) :=
  ⟨rfl, rfl, fun h => if_pos h, fun h => if_neg h⟩

/-- C8 witness: a 201 response with the literal body `"DOI\nURL\n"` is
returned unchanged. -/
theorem doi_post_contract_witness :
    (doi_post cfg0 t201 "10.5072/x" "http://e.org").2 = .ok "DOI\nURL\n" :=
  (doi_post_contract cfg0 t201 "10.5072/x" "http://e.org").2.2.1 rfl
